import Mathlib

/-!
Verification development for the maple repository.

Part 1 embeds `src/functions/src/notifications/publishNotifications.ts`:
the event union, `createNotificationFields`, and the fan-out routine
`handleNotifications` / `publishNotifications`.  Firestore is modelled as an
explicit list of subscription records; the two collection-group queries become
filters over that list; the atomic batch becomes the list of staged writes
returned by the resolve phase.  JavaScript `undefined` (field access on the
union variant that lacks the field) is modelled with `Option`, and template
string interpolation of a possibly-undefined value with `jsString`.

Part 2 embeds the pagination reducer of `src/components/db/bills.ts`:
the `State` record, the `Action` union, `adjacentKeys`, `getPageKey`, lodash
`nth`, JavaScript array read/assignment semantics (out-of-range reads give
`undefined`), and the `reducer` function.
-/

/-- One element of a bill's history: the source reads `Action` and `Branch`. -/
structure HistoryEntry where
  Action : String
  Branch : String
deriving DecidableEq, Repr, Inhabited

/-- The `BillNotification | OrgNotification` union from the source, as a sum
tagged the way the TS `type` field tags it.  The Bill variant carries
`billCourt`, `billId`, `billHistory`, `updateTime`; the Org variant carries
`orgId`, `testimonyContent`, `testimonyUser`, `updateTime` (timestamps are
abstracted as `Nat`). -/
inductive NotificationEvent
  | bill (billCourt : String) (billId : String)
         (billHistory : List HistoryEntry) (updateTime : Nat)
  | org (orgId : String) (testimonyContent : String)
        (testimonyUser : String) (updateTime : Nat)
deriving DecidableEq, Repr

namespace NotificationEvent

/-- The runtime `type` tag of the event. -/
def type : NotificationEvent → String
  | .bill .. => "bill"
  | .org .. => "org"

/-- JS access `entity.billId` on the union: `undefined` on the Org variant. -/
def billId? : NotificationEvent → Option String
  | .bill _ i _ _ => some i
  | .org .. => none

/-- JS access `entity.billCourt` on the union: `undefined` on the Org variant. -/
def billCourt? : NotificationEvent → Option String
  | .bill c _ _ _ => some c
  | .org .. => none

/-- JS access `entity.updateTime`, present on both variants. -/
def updateTime : NotificationEvent → Nat
  | .bill _ _ _ t => t
  | .org _ _ _ t => t

end NotificationEvent

/-- JS template interpolation of a value that may be `undefined`. -/
def jsString : Option String → String
  | some s => s
  | none => "undefined"

/-- The inner `notification` object built by `createNotificationFields`.
`header`, `court` and `id` come from `entity.billId` / `entity.billCourt`,
which are `undefined` on the Org variant, hence `Option String`. -/
structure Notification where
  bodyText : String
  header : Option String
  court : Option String
  id : Option String
  subheader : String
  timestamp : Nat
  type : String
  delivered : Bool
deriving DecidableEq, Repr

/-- The record returned by `createNotificationFields`. -/
structure NotificationFields where
  topicName : String
  uid : String
  notification : Notification
  createdAt : Nat
deriving DecidableEq, Repr

/-- `createNotificationFields` from the source.  The switch derives
`topicName`, `bodyText` and `subheader`; a bill with empty history throws
(`Except.error`).  `now` stands for `Timestamp.now()`. -/
def createNotificationFields (now : Nat) (entity : NotificationEvent) :
    Except String NotificationFields := do
  let fields ←
    match entity with
    | .bill billCourt billId billHistory _ =>
      if billHistory.length < 1 then
        Except.error ("Invalid history length: " ++ toString billHistory.length)
      else
        let lastHistoryAction :=
          billHistory.getD (billHistory.length - 1) default
        Except.ok ("bill-" ++ billCourt ++ "-" ++ billId,
                   lastHistoryAction.Action, lastHistoryAction.Branch)
    | .org orgId testimonyContent testimonyUser _ =>
      Except.ok ("org-" ++ orgId, testimonyContent, testimonyUser)
  return { topicName := fields.1
           uid := ""
           notification :=
             { bodyText := fields.2.1
               header := entity.billId?
               court := entity.billCourt?
               id := entity.billId?
               subheader := fields.2.2
               timestamp := entity.updateTime
               type := entity.type
               delivered := false }
           createdAt := now }

/-- Modelled from the spec: a record of the external
`activeTopicSubscriptions` collection (the code that creates these documents
is not part of the embedded sources).  Per the spec it joins a topic name to
an owning-user id; the fan-out additionally destructures a `type` field off
the document, which the spec describes as carrying the notification type the
direct-query records keep. -/
structure Subscription where
  topicName : String
  uid : String
  type : String
deriving DecidableEq, Repr

/-- The collection-group query `where("topicName", "==", topic)` over the
modelled store. -/
def queryByTopic (subs : List Subscription) (topic : String) :
    List Subscription :=
  subs.filter (fun s => s.topicName == topic)

/-- The topic of the second query:
`bill-${notificationFields.notification.court}-${notificationFields.notification.id}`. -/
def companionTopicName (fields : NotificationFields) : String :=
  "bill-" ++ jsString fields.notification.court ++ "-"
    ++ jsString fields.notification.id

/-- Lines 110-124: merge the two snapshots.  Direct-query documents are pushed
as-is; companion-query documents are pushed with `type` overridden to
`"bill"`. -/
def combinedSnapshots (topicNameSnapshot : List Subscription)
    (billSnapshot : Option (List Subscription)) : List Subscription :=
  topicNameSnapshot ++
    (billSnapshot.getD []).map (fun s => { s with type := "bill" })

/-- Lines 126-146: per merged record, the staged write: the event's fields
with `uid` and the notification `type` taken from the record. -/
def stageRecord (fields : NotificationFields) (s : Subscription) :
    NotificationFields :=
  { fields with
    uid := s.uid
    notification := { fields.notification with type := s.type } }

/-- Result of the resolve phase of `handleNotifications`: the derived fields,
the topic of the companion bill query when it was issued, and the staged
writes in batch order. -/
structure HandleResult where
  fields : NotificationFields
  companionTopic : Option String
  staged : List NotificationFields
deriving DecidableEq, Repr

/-- `handleNotifications` from the source: derive the fields (propagating the
validation error), run the direct-topic query, run the companion bill query
only when the notification type is not `"bill"`, merge, and stage one write
per merged record. -/
def handleNotifications (now : Nat) (subs : List Subscription)
    (topic : NotificationEvent) : Except String HandleResult := do
  let notificationFields ← createNotificationFields now topic
  let topicNameSnapshot := queryByTopic subs notificationFields.topicName
  let billSnapshot : Option (List Subscription) :=
    if notificationFields.notification.type ≠ "bill" then
      some (queryByTopic subs (companionTopicName notificationFields))
    else
      none
  let combined := combinedSnapshots topicNameSnapshot billSnapshot
  return { fields := notificationFields
           companionTopic :=
             billSnapshot.map (fun _ => companionTopicName notificationFields)
           staged := combined.map (stageRecord notificationFields) }

/-- Outcome of one invocation of the trigger. -/
inductive PublishOutcome
  | noData
  | failed (msg : String)
  | committed (writes : List (String × NotificationFields))
deriving DecidableEq, Repr

/-- `publishNotifications` from the source: missing `after` data is a no-op;
a thrown validation error aborts before the batch commit; otherwise the batch
is committed with one create per staged write, addressed to
`users/{uid}/userNotificationFeed`. -/
def publishNotifications (now : Nat) (snapshotAfter : Option NotificationEvent)
    (subs : List Subscription) : PublishOutcome :=
  match snapshotAfter with
  | none => .noData
  | some topic =>
    match handleNotifications now subs topic with
    | .error e => .failed e
    | .ok r =>
      .committed (r.staged.map
        (fun f => ("users/" ++ f.uid ++ "/userNotificationFeed", f)))

/-- Whether an invocation outcome committed its batch. -/
def PublishOutcome.isCommitted : PublishOutcome → Bool
  | .committed _ => true
  | _ => false

/-- Whether the companion bill query was issued by `handleNotifications`. -/
def companionQueryIssued (now : Nat) (subs : List Subscription)
    (topic : NotificationEvent) : Bool :=
  match handleNotifications now subs topic with
  | .ok r => r.companionTopic.isSome
  | .error _ => false

/-! Shared helper lemmas for the fan-out theorems. -/

/-- The JS index access `history[history.length - 1]` used by the source
agrees with the last element of a nonempty list. -/
theorem getD_length_sub_one_eq_getLast (l : List HistoryEntry) (h : l ≠ []) :
    l.getD (l.length - 1) default = l.getLast h := by
  rw [List.getLast_eq_getElem]
  exact List.getD_eq_getElem l default (Nat.sub_lt (List.length_pos.mpr h) one_pos)

/-- Reduction of `createNotificationFields` on a Bill event with nonempty
history. -/
theorem createNotificationFields_bill_cons (now : Nat) (billCourt billId : String)
    (a : HistoryEntry) (as : List HistoryEntry) (updateTime : Nat) :
    createNotificationFields now (.bill billCourt billId (a :: as) updateTime) =
      .ok { topicName := "bill-" ++ billCourt ++ "-" ++ billId
            uid := ""
            notification :=
              { bodyText := ((a :: as).getD ((a :: as).length - 1) default).Action
                header := some billId
                court := some billCourt
                id := some billId
                subheader := ((a :: as).getD ((a :: as).length - 1) default).Branch
                timestamp := updateTime
                type := "bill"
                delivered := false }
            createdAt := now } := rfl

/-- C5: for every Bill event with history of length at least 1, the derived
topic name is bill-{court}-{billId}, the notification body text is the
Action field of the last history entry, and the subheader is that entry's
Branch field. -/
theorem bill_fields_derived (now : Nat) (billCourt billId : String)
    (billHistory : List HistoryEntry) (updateTime : Nat)
    (h : billHistory ≠ []) :
    ∃ fields,
      createNotificationFields now
        (.bill billCourt billId billHistory updateTime) = .ok fields ∧
      fields.topicName = "bill-" ++ billCourt ++ "-" ++ billId ∧
      fields.notification.bodyText = (billHistory.getLast h).Action ∧
      fields.notification.subheader = (billHistory.getLast h).Branch := by
  obtain ⟨a, as, rfl⟩ := List.exists_cons_of_ne_nil h
  refine ⟨_, createNotificationFields_bill_cons now billCourt billId a as updateTime,
    rfl, ?_, ?_⟩ <;>
  · rw [getD_length_sub_one_eq_getLast (a :: as) h]

/-- Witness for C5 at a concrete Bill event. -/
theorem bill_fields_derived_witness :
    ([⟨"Passed", "House"⟩] : List HistoryEntry) ≠ [] ∧
    ∃ fields,
      createNotificationFields 7
        (.bill "House" "100" [⟨"Passed", "House"⟩] 3) = .ok fields ∧
      fields.topicName = "bill-" ++ "House" ++ "-" ++ "100" ∧
      fields.notification.bodyText =
        (([⟨"Passed", "House"⟩] : List HistoryEntry).getLast (by decide)).Action ∧
      fields.notification.subheader =
        (([⟨"Passed", "House"⟩] : List HistoryEntry).getLast (by decide)).Branch :=
  ⟨by decide, bill_fields_derived 7 "House" "100" [⟨"Passed", "House"⟩] 3 (by decide)⟩

/-- C4: for every Bill event with empty history, the invocation fails with the
validation error and no batch commit happens (no `committed` outcome, hence
no partial writes). -/
theorem empty_history_no_commit (now : Nat) (billCourt billId : String)
    (updateTime : Nat) (subs : List Subscription) :
    publishNotifications now (some (.bill billCourt billId [] updateTime)) subs =
      .failed "Invalid history length: 0" ∧
    (publishNotifications now (some (.bill billCourt billId [] updateTime))
      subs).isCommitted = false :=
  ⟨rfl, rfl⟩

/-- C3: for every Org event, the derived header, court and id are undefined
(the Org variant has no billId/billCourt), and the companion bill query topic
is the literal string bill-undefined-undefined. -/
theorem org_event_undefined_bill_fields (now : Nat)
    (orgId testimonyContent testimonyUser : String) (updateTime : Nat)
    (subs : List Subscription) :
    ∃ r,
      handleNotifications now subs
        (.org orgId testimonyContent testimonyUser updateTime) = .ok r ∧
      r.fields.notification.header = none ∧
      r.fields.notification.court = none ∧
      r.fields.notification.id = none ∧
      r.companionTopic = some "bill-undefined-undefined" :=
  ⟨_, rfl, rfl, rfl, rfl, rfl⟩

/-- C6: the companion bill query is issued exactly when the event is not a
bill event: always for Org events, never for Bill events (also not when a
Bill event aborts on empty history). -/
theorem companion_query_iff_not_bill (now : Nat) (subs : List Subscription)
    (e : NotificationEvent) :
    companionQueryIssued now subs e = true ↔ e.type ≠ "bill" := by
  cases e with
  | bill billCourt billId billHistory updateTime =>
    cases billHistory with
    | nil =>
      simp [companionQueryIssued, handleNotifications, createNotificationFields,
        NotificationEvent.type]
    | cons a as =>
      simp [companionQueryIssued, handleNotifications,
        createNotificationFields_bill_cons, NotificationEvent.type]
  | org orgId testimonyContent testimonyUser updateTime =>
    simp [companionQueryIssued, handleNotifications, createNotificationFields,
      NotificationEvent.type]

/-- C1: in the merged list built from both the direct-topic snapshot and the
bill-companion snapshot, a staged notification's type is "bill" exactly when
its record came from the companion snapshot (the positions past the direct
snapshot), and records of the direct snapshot keep the event's original type.
The hypothesis that direct-query records carry the event's type reflects the
spec's description of the external subscription documents. -/
theorem merged_type_override (fields : NotificationFields)
    (direct companion : List Subscription)
    (hdir : ∀ s ∈ direct, s.type = fields.notification.type)
    (hnb : fields.notification.type ≠ "bill") :
    ∀ i (h : i < ((combinedSnapshots direct (some companion)).map
        (stageRecord fields)).length),
      ((((combinedSnapshots direct (some companion)).map
          (stageRecord fields)).get ⟨i, h⟩).notification.type = "bill" ↔
        direct.length ≤ i) ∧
      (i < direct.length →
        (((combinedSnapshots direct (some companion)).map
            (stageRecord fields)).get ⟨i, h⟩).notification.type =
          fields.notification.type) := by
  intro i h
  have hlen : i < direct.length + companion.length := by
    simpa [combinedSnapshots] using h
  rcases lt_or_ge i direct.length with hlt | hge
  · have hgd : ((combinedSnapshots direct (some companion)).map
        (stageRecord fields)).get ⟨i, h⟩ =
          stageRecord fields (direct.get ⟨i, hlt⟩) := by
      simp only [combinedSnapshots, Option.getD_some, List.get_eq_getElem,
        List.getElem_map]
      rw [List.getElem_append_left hlt]
    have htype : (direct.get ⟨i, hlt⟩).type = fields.notification.type :=
      hdir _ (List.get_mem _ _ hlt)
    rw [hgd]
    simp only [stageRecord, htype]
    exact ⟨⟨fun hb => absurd hb hnb,
            fun hge2 => absurd hlt (Nat.not_lt.mpr hge2)⟩,
           fun _ => trivial⟩
  · have hj : i - direct.length < companion.length := by omega
    have hgd : ((combinedSnapshots direct (some companion)).map
        (stageRecord fields)).get ⟨i, h⟩ =
          stageRecord fields
            { companion.get ⟨i - direct.length, hj⟩ with type := "bill" } := by
      simp only [combinedSnapshots, Option.getD_some, List.get_eq_getElem,
        List.getElem_map]
      rw [List.getElem_append_right hge]
      simp [List.getElem_map]
    rw [hgd]
    simp only [stageRecord]
    exact ⟨⟨fun _ => hge, fun _ => trivial⟩,
           fun hlt2 => absurd hlt2 (Nat.not_lt.mpr hge)⟩

/-- Concrete notification fields of an Org event, used by witnesses. -/
def sampleOrgFields : NotificationFields :=
  { topicName := "org-42"
    uid := ""
    notification :=
      { bodyText := "Support", header := none, court := none, id := none,
        subheader := "alice", timestamp := 0, type := "org",
        delivered := false }
    createdAt := 0 }

/-- Concrete direct-topic snapshot used by witnesses. -/
def sampleDirect : List Subscription :=
  [{ topicName := "org-42", uid := "u1", type := "org" }]

/-- Concrete bill-companion snapshot used by witnesses. -/
def sampleCompanion : List Subscription :=
  [{ topicName := "bill-House-100", uid := "u2", type := "bill" }]

/-- Witness for C1 at the concrete merged list, checking the companion record
(position 1) and the direct record (position 0). -/
theorem merged_type_override_witness :
    (∀ s ∈ sampleDirect, s.type = sampleOrgFields.notification.type) ∧
    sampleOrgFields.notification.type ≠ "bill" ∧
    ((((combinedSnapshots sampleDirect (some sampleCompanion)).map
        (stageRecord sampleOrgFields)).get ⟨1, by decide⟩).notification.type =
          "bill" ↔ sampleDirect.length ≤ 1) ∧
    (0 < sampleDirect.length →
      (((combinedSnapshots sampleDirect (some sampleCompanion)).map
          (stageRecord sampleOrgFields)).get ⟨0, by decide⟩).notification.type =
        sampleOrgFields.notification.type) :=
  ⟨by decide, by decide,
    (merged_type_override sampleOrgFields sampleDirect sampleCompanion
      (by decide) (by decide) 1 (by decide)).1,
    (merged_type_override sampleOrgFields sampleDirect sampleCompanion
      (by decide) (by decide) 0 (by decide)).2⟩

/-- C2 evaluation at the spec's end-to-end scenario: because an Org event has
undefined court/id, the companion query targets topic
bill-undefined-undefined, the bill-House-100 subscriber matches neither
query, and the batch commits exactly one notification document (type "org",
for the org-42 subscriber) instead of the two the spec expects. -/
theorem org_scenario_stages_single_write :
    publishNotifications 0 (some (.org "42" "Support" "alice" 0))
      [{ topicName := "org-42", uid := "u1", type := "org" },
       { topicName := "bill-House-100", uid := "u2", type := "bill" }] =
    .committed [("users/u1/userNotificationFeed",
      { topicName := "org-42"
        uid := "u1"
        notification :=
          { bodyText := "Support", header := none, court := none, id := none,
            subheader := "alice", timestamp := 0, type := "org",
            delivered := false }
        createdAt := 0 })] := by decide

/-! Part 2: the pagination reducer of `src/components/db/bills.ts`. -/

/-- Sort modes from the source (`ListBillsSortOptions` plus `hearingDate`). -/
inductive SortOptions
  | id
  | cosponsorCount
  | testimonyCount
  | latestTestimony
  | hearingDate
deriving DecidableEq, Repr

/-- Filter variants from the source. -/
inductive FilterOptions
  | bill (id : String)
  | primarySponsor (id : String)
  | committee (id : String)
  | city (name : String)
deriving DecidableEq, Repr

/-- The bill fields consulted by `getPageKey`.  The remaining fields of the
source's `Bill` record (content, fetchedAt, history, currentCommittee, city,
latestTestimonyId) are never read by the reducer or the key extractor. -/
structure Bill where
  id : String
  cosponsorCount : Nat
  testimonyCount : Nat
  nextHearingAt : Option Nat
  latestTestimonyAt : Option Nat
deriving DecidableEq, Repr, Inhabited

/-- One component of a cursor key: the source's keys are heterogeneous JS
arrays holding a string id, a numeric count, or a possibly-absent
timestamp. -/
inductive KeyElem
  | str (s : String)
  | num (n : Nat)
  | time (t : Option Nat)
deriving DecidableEq, Repr

/-- `getPageKey` from the source: the cursor-key extractor per sort mode. -/
def getPageKey (bill : Bill) (sort : SortOptions) : List KeyElem :=
  match sort with
  | .cosponsorCount => [.num bill.cosponsorCount, .str bill.id]
  | .hearingDate => [.time bill.nextHearingAt, .str bill.id]
  | .id => [.str bill.id]
  | .latestTestimony => [.time bill.latestTestimonyAt, .str bill.id]
  | .testimonyCount => [.num bill.testimonyCount, .str bill.id]

/-- A slot of the `pageKeys` array: a JS value that is `undefined`, `null`,
or a cursor key. -/
inductive KeyEntry
  | undefined
  | null
  | key (k : List KeyElem)
deriving DecidableEq, Repr

/-- JS array read `keys[i]`: out-of-range indices (including negative ones)
give `undefined`. -/
def getKey (keys : List KeyEntry) (i : Int) : KeyEntry :=
  if h : 0 ≤ i ∧ i.toNat < keys.length then keys.get ⟨i.toNat, h.2⟩
  else .undefined

/-- JS array assignment `keys[i] = v` for nonnegative `i`: in-range writes
set the slot, writing at or past the end extends the array, and holes read
back as `undefined`.  The reducer only ever writes at `currentPage + 1` with
a nonnegative `currentPage`, so a negative index is left as the identity. -/
def setKey (keys : List KeyEntry) (i : Int) (v : KeyEntry) : List KeyEntry :=
  if i < 0 then keys
  else if i.toNat < keys.length then keys.set i.toNat v
  else keys ++ List.replicate (i.toNat - keys.length) .undefined ++ [v]

namespace Bills

/-- The reducer's `State` record.  Cursor keys are `KeyEntry` values; the
error slot holds the message of the last `error` action. -/
structure State where
  sort : SortOptions
  filter : Option FilterOptions
  pageKeys : List KeyEntry
  currentPageKey : KeyEntry
  currentPage : Int
  billsPerPage : Nat
  nextKey : KeyEntry
  previousKey : KeyEntry
  error : Option String
deriving DecidableEq, Repr

/-- The `Action` union from the source. -/
inductive Action
  | nextPage
  | previousPage
  | sort (sort : SortOptions)
  | filter (filter : Option FilterOptions)
  | onSuccess (page : List Bill)
  | error (error : String)
deriving DecidableEq, Repr

/-- The `initialPage` fragment spread into the state whenever sort or filter
changes. -/
def applyInitialPage (s : State) : State :=
  { s with
    pageKeys := [.null]
    currentPage := 0
    currentPageKey := .null
    nextKey := .undefined
    previousKey := .undefined }

/-- `initialState` from the source. -/
def initialState : State :=
  { sort := .id
    filter := none
    pageKeys := [.null]
    currentPageKey := .null
    currentPage := 0
    billsPerPage := 10
    nextKey := .undefined
    previousKey := .undefined
    error := none }

/-- `adjacentKeys` from the source: the cursors adjacent to `currentPage`. -/
def adjacentKeys (keys : List KeyEntry) (currentPage : Int) :
    KeyEntry × KeyEntry :=
  (getKey keys (currentPage + 1), getKey keys (currentPage - 1))

/-- lodash `nth`: a negative index counts from the end; out of range gives
`undefined`. -/
def lodashNth (l : List Bill) (n : Int) : Option Bill :=
  let i := if n < 0 then n + l.length else n
  if h : 0 ≤ i ∧ i.toNat < l.length then some (l.get ⟨i.toNat, h.2⟩)
  else none

/-- The branch of the reducer shared by `nextPage` (`delta = 1`) and
`previousPage` (`delta = -1`): move only if the adjacent page's cursor is
not `undefined`. -/
def pageStep (state : State) (delta : Int) : State :=
  let next := state.currentPage + delta
  let nextKey := getKey state.pageKeys next
  if nextKey ≠ .undefined then
    let adj := adjacentKeys state.pageKeys next
    { state with
      currentPage := next
      currentPageKey := nextKey
      nextKey := adj.1
      previousKey := adj.2 }
  else state

/-- The `reducer` from the source. -/
def reducer (state : State) (action : Action) : State :=
  match action with
  | .nextPage => pageStep state 1
  | .previousPage => pageStep state (-1)
  | .sort newSort =>
    if newSort ≠ state.sort then
      applyInitialPage { state with sort := newSort }
    else
      state
  | .onSuccess page =>
    let bill := lodashNth page ((state.billsPerPage : Int) - 1)
    let keys := setKey state.pageKeys (state.currentPage + 1)
      (match bill with
       | some b => .key (getPageKey b state.sort)
       | none => .undefined)
    let adj := adjacentKeys keys state.currentPage
    { state with pageKeys := keys, nextKey := adj.1, previousKey := adj.2 }
  | .error e => { state with error := some e }
  | .filter f => applyInitialPage { state with filter := f }

end Bills

/-! Helper lemmas about the JS array read/write model. -/

/-- Reading a negative index gives undefined. -/
theorem getKey_neg (keys : List KeyEntry) (i : Int) (hi : i < 0) :
    getKey keys i = .undefined := by
  unfold getKey
  rw [dif_neg]
  exact fun hc => absurd hc.1 (not_le.mpr hi)

/-- Reading the slot just written. -/
theorem getKey_setKey_self (keys : List KeyEntry) (i : Int) (hi : 0 ≤ i)
    (v : KeyEntry) : getKey (setKey keys i v) i = v := by
  unfold setKey
  rw [if_neg (not_lt.mpr hi)]
  by_cases h : i.toNat < keys.length
  · rw [if_pos h]
    unfold getKey
    rw [dif_pos ⟨hi, by simpa using h⟩]
    simp [List.get_eq_getElem, List.getElem_set_self]
  · rw [if_neg h]
    push_neg at h
    unfold getKey
    have hmid : (keys ++ List.replicate (i.toNat - keys.length) KeyEntry.undefined).length
        = i.toNat := by
      simp
      omega
    rw [dif_pos ⟨hi, by simp; omega⟩]
    simp only [List.get_eq_getElem]
    rw [List.getElem_append_right hmid.le]
    simp [hmid]

/-- Reading any other slot is unchanged by a write. -/
theorem getKey_setKey_ne (keys : List KeyEntry) (i j : Int) (hi : 0 ≤ i)
    (hne : j ≠ i) (v : KeyEntry) :
    getKey (setKey keys i v) j = getKey keys j := by
  rcases lt_or_ge j 0 with hj | hj
  · rw [getKey_neg _ _ hj, getKey_neg _ _ hj]
  · have hij : i.toNat ≠ j.toNat := fun hEq => hne (by omega)
    unfold setKey
    rw [if_neg (not_lt.mpr hi)]
    by_cases h : i.toNat < keys.length
    · rw [if_pos h]
      unfold getKey
      by_cases hjl : j.toNat < keys.length
      · rw [dif_pos ⟨hj, by simpa using hjl⟩, dif_pos ⟨hj, hjl⟩]
        simp only [List.get_eq_getElem]
        rw [List.getElem_set_ne hij]
      · rw [dif_neg fun hc => hjl (by simpa using hc.2),
            dif_neg fun hc => hjl hc.2]
    · rw [if_neg h]
      push_neg at h
      have hmid :
          (keys ++ List.replicate (i.toNat - keys.length)
            KeyEntry.undefined).length = i.toNat := by
        simp
        omega
      have hlenL :
          (keys ++ List.replicate (i.toNat - keys.length) KeyEntry.undefined
            ++ [v]).length = i.toNat + 1 := by
        simp
        omega
      by_cases hjl : j.toNat < keys.length
      · have hrhs : getKey keys j = keys.get ⟨j.toNat, hjl⟩ := by
          unfold getKey
          rw [dif_pos ⟨hj, hjl⟩]
        have hlhs : getKey
            (keys ++ List.replicate (i.toNat - keys.length) KeyEntry.undefined
              ++ [v]) j = keys.get ⟨j.toNat, hjl⟩ := by
          unfold getKey
          rw [dif_pos ⟨hj, by rw [hlenL]; omega⟩]
          simp only [List.get_eq_getElem]
          rw [List.getElem_append_left (by rw [hmid]; omega),
              List.getElem_append_left hjl]
        rw [hlhs, hrhs]
      · have hrhs : getKey keys j = .undefined := by
          unfold getKey
          exact dif_neg fun hc => hjl hc.2
        by_cases hjm : j.toNat < i.toNat
        · have hlhs : getKey
              (keys ++ List.replicate (i.toNat - keys.length) KeyEntry.undefined
                ++ [v]) j = .undefined := by
            unfold getKey
            rw [dif_pos ⟨hj, by rw [hlenL]; omega⟩]
            simp only [List.get_eq_getElem]
            rw [List.getElem_append_left (by rw [hmid]; omega),
                List.getElem_append_right (by omega : keys.length ≤ j.toNat)]
            simp [List.getElem_replicate]
          rw [hlhs, hrhs]
        · have hlhs : getKey
              (keys ++ List.replicate (i.toNat - keys.length) KeyEntry.undefined
                ++ [v]) j = .undefined := by
            unfold getKey
            exact dif_neg fun hc => (by omega : ¬ j.toNat < i.toNat + 1)
              (hlenL ▸ hc.2)
          rw [hlhs, hrhs]

namespace Bills

/-- C7: dispatching nextPage (or previousPage) when the adjacent page's
cursor is undefined leaves the state unchanged; when it is defined, the
current page index moves by +1 (or -1), the stored cursor becomes the
current page key, and next/previous cursors are recomputed from the cursor
list at the new index. -/
theorem page_navigation (s : State) :
    (getKey s.pageKeys (s.currentPage + 1) = .undefined →
      reducer s .nextPage = s) ∧
    (getKey s.pageKeys (s.currentPage + 1) ≠ .undefined →
      reducer s .nextPage =
        { s with
          currentPage := s.currentPage + 1
          currentPageKey := getKey s.pageKeys (s.currentPage + 1)
          nextKey := getKey s.pageKeys (s.currentPage + 1 + 1)
          previousKey := getKey s.pageKeys (s.currentPage + 1 - 1) }) ∧
    (getKey s.pageKeys (s.currentPage + -1) = .undefined →
      reducer s .previousPage = s) ∧
    (getKey s.pageKeys (s.currentPage + -1) ≠ .undefined →
      reducer s .previousPage =
        { s with
          currentPage := s.currentPage + -1
          currentPageKey := getKey s.pageKeys (s.currentPage + -1)
          nextKey := getKey s.pageKeys (s.currentPage + -1 + 1)
          previousKey := getKey s.pageKeys (s.currentPage + -1 - 1) }) := by
  refine ⟨?_, ?_, ?_, ?_⟩ <;> intro h <;>
    simp [reducer, pageStep, adjacentKeys, h]

/-- A concrete state on page 0 whose next cursor is known. -/
def samplePagedState : State :=
  { sort := .id
    filter := none
    pageKeys := [.null, .key [.str "b10"]]
    currentPageKey := .null
    currentPage := 0
    billsPerPage := 10
    nextKey := .key [.str "b10"]
    previousKey := .undefined
    error := none }

/-- Witness for C7: from `samplePagedState`, nextPage advances (its cursor is
known) and previousPage is a no-op (the previous cursor is undefined). -/
theorem page_navigation_witness :
    (getKey samplePagedState.pageKeys (samplePagedState.currentPage + 1) ≠
      .undefined) ∧
    reducer samplePagedState .nextPage =
      { samplePagedState with
        currentPage := samplePagedState.currentPage + 1
        currentPageKey :=
          getKey samplePagedState.pageKeys (samplePagedState.currentPage + 1)
        nextKey :=
          getKey samplePagedState.pageKeys
            (samplePagedState.currentPage + 1 + 1)
        previousKey :=
          getKey samplePagedState.pageKeys
            (samplePagedState.currentPage + 1 - 1) } ∧
    (getKey samplePagedState.pageKeys (samplePagedState.currentPage + -1) =
      .undefined) ∧
    reducer samplePagedState .previousPage = samplePagedState :=
  ⟨by decide,
   (page_navigation samplePagedState).2.1 (by decide),
   by decide,
   (page_navigation samplePagedState).2.2.1 (by decide)⟩

/-- C9: dispatching sort with a different sort mode resets to the first page
(cursor list [null], page index 0, next/previous cursors cleared) and adopts
the new mode, leaving filter, page size and error untouched; dispatching
sort with the unchanged mode returns the state unchanged. -/
theorem sort_reset (s : State) (newSort : SortOptions) :
    (newSort ≠ s.sort →
      reducer s (.sort newSort) =
        { s with
          sort := newSort
          pageKeys := [.null]
          currentPage := 0
          currentPageKey := .null
          nextKey := .undefined
          previousKey := .undefined }) ∧
    (newSort = s.sort → reducer s (.sort newSort) = s) := by
  constructor <;> intro h <;> simp [reducer, applyInitialPage, h]

/-- Witness for C9 at `samplePagedState`: changing the sort mode resets the
paging state; re-dispatching the current mode changes nothing. -/
theorem sort_reset_witness :
    (SortOptions.cosponsorCount ≠ samplePagedState.sort) ∧
    reducer samplePagedState (.sort .cosponsorCount) =
      { samplePagedState with
        sort := .cosponsorCount
        pageKeys := [.null]
        currentPage := 0
        currentPageKey := .null
        nextKey := .undefined
        previousKey := .undefined } ∧
    (SortOptions.id = samplePagedState.sort) ∧
    reducer samplePagedState (.sort .id) = samplePagedState :=
  ⟨by decide,
   (sort_reset samplePagedState .cosponsorCount).1 (by decide),
   by decide,
   (sort_reset samplePagedState .id).2 (by decide)⟩

end Bills

namespace Bills

/-- lodash nth at a cast nonnegative index is plain list lookup. -/
theorem lodashNth_natCast (l : List Bill) (n : Nat) :
    lodashNth l (n : Int) = l.get? n := by
  have h0 : (if (n : Int) < 0 then (n : Int) + l.length else (n : Int)) =
      (n : Int) := if_neg (by omega)
  simp only [lodashNth, h0]
  by_cases h : n < l.length
  · rw [dif_pos ⟨by omega, by simpa using h⟩, List.get?_eq_get h]
    simp
  · rw [dif_neg fun hc => h (by simpa using hc.2),
        List.get?_eq_none.mpr (by omega)]

/-- C8: a successful fetch of a page holding at least billsPerPage items
stores the cursor key of the billsPerPage-th item (extracted per the current
sort mode) at index currentPage+1 of the cursor list and recomputes the
adjacent cursors for the current page index (so that key becomes the next
cursor); a fetch with fewer items stores undefined there, so the next cursor
is undefined and no further page is available. -/
theorem query_succeeded (s : State) (page : List Bill)
    (hcp : 0 ≤ s.currentPage) (hbpp : 0 < s.billsPerPage) :
    (∀ b, page.get? (s.billsPerPage - 1) = some b →
      reducer s (.onSuccess page) =
        { s with
          pageKeys := setKey s.pageKeys (s.currentPage + 1)
            (.key (getPageKey b s.sort))
          nextKey := .key (getPageKey b s.sort)
          previousKey := getKey
            (setKey s.pageKeys (s.currentPage + 1)
              (.key (getPageKey b s.sort)))
            (s.currentPage - 1) }) ∧
    (page.length < s.billsPerPage →
      reducer s (.onSuccess page) =
        { s with
          pageKeys := setKey s.pageKeys (s.currentPage + 1) .undefined
          nextKey := .undefined
          previousKey := getKey
            (setKey s.pageKeys (s.currentPage + 1) .undefined)
            (s.currentPage - 1) }) := by
  have hcast : (s.billsPerPage : Int) - 1 = ((s.billsPerPage - 1 : Nat) : Int) := by
    omega
  constructor
  · intro b hb
    have hnth : lodashNth page ((s.billsPerPage : Int) - 1) = some b := by
      rw [hcast, lodashNth_natCast, hb]
    simp only [reducer, hnth, adjacentKeys]
    rw [getKey_setKey_self _ _ (by omega)]
  · intro hshort
    have hnth : lodashNth page ((s.billsPerPage : Int) - 1) = none := by
      rw [hcast, lodashNth_natCast, List.get?_eq_none.mpr (by omega)]
    simp only [reducer, hnth, adjacentKeys]
    rw [getKey_setKey_self _ _ (by omega)]

/-- Witness for C8 at `samplePagedState`: a full page of ten bills stores the
tenth bill's key as the next cursor; an empty page stores undefined. -/
theorem query_succeeded_witness :
    0 ≤ samplePagedState.currentPage ∧
    0 < samplePagedState.billsPerPage ∧
    reducer samplePagedState (.onSuccess (List.replicate 10 default)) =
      { samplePagedState with
        pageKeys := setKey samplePagedState.pageKeys
          (samplePagedState.currentPage + 1)
          (.key (getPageKey default samplePagedState.sort))
        nextKey := .key (getPageKey default samplePagedState.sort)
        previousKey := getKey
          (setKey samplePagedState.pageKeys
            (samplePagedState.currentPage + 1)
            (.key (getPageKey default samplePagedState.sort)))
          (samplePagedState.currentPage - 1) } ∧
    reducer samplePagedState (.onSuccess []) =
      { samplePagedState with
        pageKeys := setKey samplePagedState.pageKeys
          (samplePagedState.currentPage + 1) .undefined
        nextKey := .undefined
        previousKey := getKey
          (setKey samplePagedState.pageKeys
            (samplePagedState.currentPage + 1) .undefined)
          (samplePagedState.currentPage - 1) } :=
  ⟨by decide, by decide,
   (query_succeeded samplePagedState (List.replicate 10 default)
      (by decide) (by decide)).1 default (by decide),
   (query_succeeded samplePagedState [] (by decide) (by decide)).2
      (by decide)⟩

end Bills

namespace Bills

/-- The representation invariant of the pagination state: nonnegative page
index, a null cursor for page 0, and cached current/next/previous cursors
that agree with the cursor list (undefined when out of range, per
`getKey`). -/
def Inv (s : State) : Prop :=
  0 ≤ s.currentPage ∧
  getKey s.pageKeys 0 = .null ∧
  s.currentPageKey = getKey s.pageKeys s.currentPage ∧
  s.nextKey = getKey s.pageKeys (s.currentPage + 1) ∧
  s.previousKey = getKey s.pageKeys (s.currentPage - 1)

/-- States reachable from `initialState` by reducer actions. -/
inductive Reachable : State → Prop
  | init : Reachable initialState
  | step {s : State} (hs : Reachable s) (a : Action) : Reachable (reducer s a)

/-- Every reducer transition preserves the invariant. -/
theorem inv_preserved (s : State) (a : Action) (hs : Inv s) :
    Inv (reducer s a) := by
  obtain ⟨h0, hnull, hcpk, hnk, hpk⟩ := hs
  cases a with
  | nextPage =>
    show Inv (pageStep s 1)
    simp only [pageStep, adjacentKeys]
    by_cases h : getKey s.pageKeys (s.currentPage + 1) = .undefined
    · rw [if_neg fun hc => hc h]
      exact ⟨h0, hnull, hcpk, hnk, hpk⟩
    · rw [if_pos h]
      refine ⟨?_, hnull, rfl, rfl, rfl⟩
      show (0 : Int) ≤ s.currentPage + 1
      omega
  | previousPage =>
    show Inv (pageStep s (-1))
    simp only [pageStep, adjacentKeys]
    by_cases h : getKey s.pageKeys (s.currentPage + -1) = .undefined
    · rw [if_neg fun hc => hc h]
      exact ⟨h0, hnull, hcpk, hnk, hpk⟩
    · rw [if_pos h]
      have hge : (0 : Int) ≤ s.currentPage + -1 := by
        by_contra hneg
        exact h (getKey_neg _ _ (by omega))
      exact ⟨hge, hnull, rfl, rfl, rfl⟩
  | sort newSort =>
    simp only [reducer]
    by_cases h : newSort ≠ s.sort
    · rw [if_pos h]
      exact ⟨le_refl 0, rfl, rfl, rfl, rfl⟩
    · rw [if_neg h]
      exact ⟨h0, hnull, hcpk, hnk, hpk⟩
  | filter f =>
    exact ⟨le_refl 0, rfl, rfl, rfl, rfl⟩
  | error e =>
    exact ⟨h0, hnull, hcpk, hnk, hpk⟩
  | onSuccess page =>
    have h01 : (0 : Int) ≤ s.currentPage + 1 := by omega
    have hne0 : (0 : Int) ≠ s.currentPage + 1 := by omega
    have hnecp : s.currentPage ≠ s.currentPage + 1 := by omega
    simp only [reducer, adjacentKeys]
    refine ⟨h0, ?_, ?_, rfl, rfl⟩ <;> dsimp only
    · rw [getKey_setKey_ne _ _ _ h01 hne0]
      exact hnull
    · rw [getKey_setKey_ne _ _ _ h01 hnecp]
      exact hcpk

/-- C10: every pagination state reachable from the initial state by reducer
actions satisfies the invariant (currentPage is nonnegative, pageKeys[0] is
null, and currentPageKey, nextKey and previousKey equal the cursor-list
entries at currentPage, currentPage+1 and currentPage-1, undefined when out
of range), and every reducer transition preserves that invariant. -/
theorem reachable_invariant :
    (∀ s, Reachable s → Inv s) ∧ ∀ s a, Inv s → Inv (reducer s a) := by
  refine ⟨?_, fun s a h => inv_preserved s a h⟩
  intro s hr
  induction hr with
  | init => exact ⟨by decide, by decide, by decide, by decide, by decide⟩
  | step hs a ih => exact inv_preserved _ a ih

/-- Witness for C10: concrete reachable states satisfy the invariant, and a
transition from the initial state preserves it. -/
theorem reachable_invariant_witness :
    Reachable (reducer initialState .nextPage) ∧
    Inv (reducer initialState .nextPage) ∧
    Inv (reducer initialState (.sort .cosponsorCount)) :=
  ⟨Reachable.step Reachable.init Action.nextPage,
   reachable_invariant.1 _ (Reachable.step Reachable.init Action.nextPage),
   reachable_invariant.2 initialState (.sort .cosponsorCount)
     (reachable_invariant.1 _ Reachable.init)⟩

end Bills
